import Mathlib

/-!
Verification of the offline-sync layer of the nesttask-routine application.

The development shallowly embeds the offline-first synchronization code:

* `src/utils/offlineStorage.ts`   — the IndexedDB wrapper (Local Store);
* `src/hooks/useTasks.ts`         — the task Entity Sync Controller;
* the routines hook (`useRoutines`) — the routine/slot Entity Sync
  Controller, including its `syncOfflineChanges` reconciliation pass;
* `src/services/routine.service.ts` — consulted only to determine which
  fields each Remote Service call actually transmits.

Modelling conventions:

* An IndexedDB object store (keyed by `id` via `keyPath: 'id'`) is a
  `List` of records; `store.put` is an upsert by id.  `saveToIndexedDB`
  puts one record or each record of an array; it never deletes.
* React state (`setTasks` / `setRoutines`) is the in-memory view, a list
  field of an explicit state structure.  Each hook operation is a pure
  state-transition function.
* Remote Service outcomes (supabase calls) are inputs: either a result
  structure of outcome functions, or a single `Except String α` argument
  for one call.  Every Remote call an operation makes is recorded in a
  returned trace list, so "called exactly once" is a statement about the
  trace.
* Nondeterministic identifier generation (`Date.now()` plus a random
  suffix) is passed in as explicit string arguments; the shape of the
  generated identifier (`temp_...` / `temp-...`) is kept as a function of
  those arguments.
* JS record spreads such as `{ ...task, ...updates }` over `Partial`
  updates are merges of option-valued update structures; the absent
  boolean flags `_isOffline`, `_isOfflineUpdated`, `_isOfflineDeleted`
  are `Bool` fields with `false` meaning "absent".  Entity fields that no
  modelled branch reads or writes specially (description, category,
  room/section/teacher columns, ...) are collapsed into the retained
  representative data fields.
-/

namespace NestTask

/-! ## Local Store: `src/utils/offlineStorage.ts`

An object store created with `{ keyPath: 'id' }`.  `store.put(item)`
inserts the record or replaces the record with the same id. -/

/-- One `store.put(item)` against an object store keyed by `getId`:
replace the resident record with the same id, or append the record. -/
def idbPut (getId : α → String) (s : List α) (x : α) : List α :=
  if s.any (fun y => getId y == getId x) then
    s.map (fun y => if getId y == getId x then x else y)
  else
    s ++ [x]

/-- `saveToIndexedDB(storeName, data)` with an array argument
(offlineStorage.ts 56-86): one `store.put` per element, in order.  Note
that this only upserts; it removes nothing from the store. -/
def idbPutMany (getId : α → String) (s : List α) (xs : List α) : List α :=
  xs.foldl (idbPut getId) s

/-- `deleteFromIndexedDB(storeName, id)` (offlineStorage.ts 148-169):
`store.delete(id)`. -/
def idbDelete (getId : α → String) (s : List α) (id : String) : List α :=
  s.filter (fun y => getId y != id)

/-- `getAllFromIndexedDB` (offlineStorage.ts 92-113).  The body is

    try { const db = await initDB();
          return new Promise((resolve, reject) => ... ); }
    catch (error) { return []; }

The `catch` observes the awaited `initDB()` rejection (a storage-open
failure) and degrades to `[]`.  The promise built over the read
transaction is *returned* from the `try` block rather than awaited, so by
JS async-function semantics its later rejection (a transaction/request
failure) is never seen by this `catch`: it propagates to the caller.
`openResult` is the `initDB()` outcome and `requestResult` the
`store.getAll()` request outcome. -/
def getAllFromIndexedDB (openResult : Except String Unit)
    (requestResult : Except String (List α)) : Except String (List α) :=
  match openResult with
  | .error _ => .ok []
  | .ok _ => requestResult

/-- `getByIdFromIndexedDB` (offlineStorage.ts 120-141): same shape as
`getAllFromIndexedDB`, degrading to `null` (here `none`) only on the
storage-open failure caught by the `catch`. -/
def getByIdFromIndexedDB (openResult : Except String Unit)
    (requestResult : Except String (Option α)) : Except String (Option α) :=
  match openResult with
  | .error _ => .ok none
  | .ok _ => requestResult

/-! ## Tasks: `src/hooks/useTasks.ts`

`OfflineTask` is the stored record shape (`Task` plus the `userId` the
hook stamps on for offline filtering, useTasks.ts 8-12).  The many task
payload columns are collapsed into `title`/`dueDate`, the two fields the
spec scenario names. -/

structure OfflineTask where
  id : String
  title : String
  dueDate : String
  createdAt : String
  updatedAt : String
  userId : String
deriving DecidableEq, Repr

/-- `putTask`: one `store.put` into the `tasks` object store. -/
def putTask (s : List OfflineTask) (t : OfflineTask) : List OfflineTask :=
  idbPut (fun x => x.id) s t

/-- Array form of `saveToIndexedDB(STORES.TASKS, ...)`. -/
def putTasks (s : List OfflineTask) (ts : List OfflineTask) : List OfflineTask :=
  idbPutMany (fun x => x.id) s ts

/-- The hook state: `tasks` is the React in-memory view, `store` the
IndexedDB `tasks` object store. -/
structure TasksState where
  tasks : List OfflineTask
  store : List OfflineTask
deriving DecidableEq, Repr

/-- `NewTask` input to `handleCreateTask`. -/
structure NewTaskInput where
  title : String
  dueDate : String
deriving DecidableEq, Repr

/-- `Partial<Task>` updates passed to `handleUpdateTask`; `none` is an
absent key, so `{ ...existingTask, ...updates }` keeps the old value. -/
structure TaskUpdates where
  title : Option String
  dueDate : Option String
deriving DecidableEq, Repr

/-- The spread `{ ...existingTask, ...updates }`. -/
def applyTaskUpdates (t : OfflineTask) (u : TaskUpdates) : OfflineTask :=
  { t with title := u.title.getD t.title, dueDate := u.dueDate.getD t.dueDate }

/-- Remote Service calls the task hook can issue (the task service module
is the external Remote Service collaborator; its outcomes are inputs). -/
inductive TaskCall where
  | fetch (userId : String)
  | create (userId : String) (input : NewTaskInput)
  | update (id : String) (u : TaskUpdates)
  | del (id : String)
deriving DecidableEq, Repr

/-- The offline temporary task id (useTasks.ts 128):
`temp_${Date.now()}_${random suffix}`. -/
def mkTempTaskId (now rand : String) : String :=
  "temp_" ++ now ++ "_" ++ rand

/-- `loadTasks` (useTasks.ts 21-85).  Offline: serve the IndexedDB store
filtered to the current user.  Online: fetch (the `testConnection`
failure and a `fetchTasks` rejection both land in the same `catch`, so
one `Except` outcome covers both): on success the view becomes the
fetched list and the fetched records, stamped with `userId`, are
put-upserted into IndexedDB; on failure fall back to the user-filtered
store contents, adopted only when non-empty.  The returned trace records
the Remote fetch. -/
def loadTasks (userId : String) (isOffline : Bool)
    (fetchResult : Except String (List OfflineTask))
    (st : TasksState) : TasksState × List TaskCall :=
  if isOffline then
    ({ st with tasks := st.store.filter (fun t => t.userId == userId) }, [])
  else
    match fetchResult with
    | .ok data =>
        let tasksWithUserId := data.map (fun t => { t with userId := userId })
        ({ tasks := data, store := putTasks st.store tasksWithUserId },
         [TaskCall.fetch userId])
    | .error _ =>
        let userTasks := st.store.filter (fun t => t.userId == userId)
        if userTasks.isEmpty then (st, [TaskCall.fetch userId])
        else ({ st with tasks := userTasks }, [TaskCall.fetch userId])

/-- `handleCreateTask` (useTasks.ts 117-167).  Offline: build the
temporary record (no sync flag of any kind is attached to it), put it in
IndexedDB and append it to the view.  Online: on Remote success append
the result to the view and store it stamped with `userId`; on Remote
rejection rethrow with no state change. -/
def handleCreateTask (userId : String) (isOffline : Bool)
    (now rand : String) (input : NewTaskInput)
    (createResult : Except String OfflineTask)
    (st : TasksState) : Except String OfflineTask × TasksState × List TaskCall :=
  if isOffline then
    let offlineTask : OfflineTask :=
      { id := mkTempTaskId now rand, title := input.title,
        dueDate := input.dueDate, createdAt := now, updatedAt := now,
        userId := userId }
    (.ok offlineTask,
     { tasks := st.tasks ++ [offlineTask], store := putTask st.store offlineTask },
     [])
  else
    match createResult with
    | .error e => (.error e, st, [TaskCall.create userId input])
    | .ok result =>
        (.ok result,
         { tasks := st.tasks ++ [result],
           store := putTask st.store { result with userId := userId } },
         [TaskCall.create userId input])

/-- `handleUpdateTask` (useTasks.ts 169-216).  Offline: read the record
from IndexedDB (`Task not found` when absent), merge, store, and replace
it in the view.  Online: on Remote success the server result replaces the
record in the view and is stored stamped with `userId`; on rejection
rethrow with no state change. -/
def handleUpdateTask (userId : String) (isOffline : Bool) (now : String)
    (taskId : String) (u : TaskUpdates)
    (updateResult : Except String OfflineTask)
    (st : TasksState) : Except String OfflineTask × TasksState × List TaskCall :=
  if isOffline then
    match st.store.find? (fun t => t.id == taskId) with
    | none => (.error "Task not found", st, [])
    | some existingTask =>
        let updatedTask := { applyTaskUpdates existingTask u with updatedAt := now }
        (.ok updatedTask,
         { tasks := st.tasks.map (fun t => if t.id == taskId then updatedTask else t),
           store := putTask st.store updatedTask },
         [])
  else
    match updateResult with
    | .error e => (.error e, st, [TaskCall.update taskId u])
    | .ok result =>
        (.ok result,
         { tasks := st.tasks.map (fun t => if t.id == taskId then result else t),
           store := putTask st.store { result with userId := userId } },
         [TaskCall.update taskId u])

/-- `handleDeleteTask` (useTasks.ts 218-245).  Offline: remove from
IndexedDB and from the view.  Online: on Remote success remove from the
view and IndexedDB; on rejection rethrow with no state change. -/
def handleDeleteTask (isOffline : Bool) (taskId : String)
    (deleteResult : Except String Unit)
    (st : TasksState) : Except String Unit × TasksState × List TaskCall :=
  if isOffline then
    (.ok (),
     { tasks := st.tasks.filter (fun t => t.id != taskId),
       store := idbDelete (fun t => t.id) st.store taskId },
     [])
  else
    match deleteResult with
    | .error e => (.error e, st, [TaskCall.del taskId])
    | .ok _ =>
        (.ok (),
         { tasks := st.tasks.filter (fun t => t.id != taskId),
           store := idbDelete (fun t => t.id) st.store taskId },
         [TaskCall.del taskId])

/-- `syncOfflineChanges` of the task hook (useTasks.ts 247-253).  The
body is only `loadTasks()`: no offline change is replayed ("For
simplicity, we're not implementing the full sync logic here"). -/
def syncOfflineChangesTasks (userId : String) (isOffline : Bool)
    (fetchResult : Except String (List OfflineTask))
    (st : TasksState) : TasksState × List TaskCall :=
  loadTasks userId isOffline fetchResult st

/-! ## Routines: the `useRoutines` hook

A `RoutineSlot` keeps the scheduling columns the service validates and
transmits (`dayOfWeek`, `startTime`, `endTime`; the remaining optional
columns are collapsed into them) plus the three ad hoc offline flags. -/

structure RoutineSlot where
  id : String
  routineId : String
  dayOfWeek : String
  startTime : String
  endTime : String
  createdAt : String
  _isOffline : Bool
  _isOfflineUpdated : Bool
  _isOfflineDeleted : Bool
deriving DecidableEq, Repr

/-- A `Routine`: data columns the service transmits (`name`, `semester`,
`isActive`; `description` collapsed into `name`), the nested slots, and
the three offline flags. -/
structure Routine where
  id : String
  name : String
  semester : String
  isActive : Bool
  createdAt : String
  slots : List RoutineSlot
  _isOffline : Bool
  _isOfflineUpdated : Bool
  _isOfflineDeleted : Bool
deriving DecidableEq, Repr

/-- What `createRoutine`/`updateRoutine` in routine.service.ts actually
send to the server: only `name`/`description`/`semester`/`is_active` are
inserted, whatever extra fields (temporary id, flags, slots) the caller
leaves on the object. -/
structure RoutinePayload where
  name : String
  semester : String
  isActive : Bool
deriving DecidableEq, Repr

def Routine.payload (r : Routine) : RoutinePayload :=
  { name := r.name, semester := r.semester, isActive := r.isActive }

/-- What `addRoutineSlot`/`updateRoutineSlot` in routine.service.ts send:
the scheduling columns only; flags and the temporary slot id are never
transmitted. -/
structure SlotPayload where
  dayOfWeek : String
  startTime : String
  endTime : String
deriving DecidableEq, Repr

def RoutineSlot.payload (s : RoutineSlot) : SlotPayload :=
  { dayOfWeek := s.dayOfWeek, startTime := s.startTime, endTime := s.endTime }

/-- Remote Service calls the routines hook can issue, with exactly the
data each service function transmits. -/
inductive RemoteCall where
  | createRoutine (p : RoutinePayload)
  | updateRoutine (id : String) (p : RoutinePayload)
  | deleteRoutine (id : String)
  | addSlot (routineId : String) (p : SlotPayload)
  | updateSlot (routineId : String) (slotId : String) (p : SlotPayload)
  | deleteSlot (routineId : String) (slotId : String)
deriving DecidableEq, Repr

/-- Remote Service outcome functions for a reconciliation pass: what the
server answers to each possible call. -/
structure Remote where
  createRoutineResult : RoutinePayload → Except String Routine
  updateRoutineResult : String → RoutinePayload → Except String Unit
  deleteRoutineResult : String → Except String Unit
  addSlotResult : String → SlotPayload → Except String RoutineSlot
  updateSlotResult : String → String → SlotPayload → Except String Unit
  deleteSlotResult : String → String → Except String Unit

/-- The routines hook state: React view plus the IndexedDB `routines`
object store. -/
structure RoutinesState where
  routines : List Routine
  store : List Routine
deriving DecidableEq, Repr

def putRoutine (s : List Routine) (r : Routine) : List Routine :=
  idbPut (fun x => x.id) s r

def putRoutines (s : List Routine) (rs : List Routine) : List Routine :=
  idbPutMany (fun x => x.id) s rs

/-- `array[index] = x` after `findIndex`: replace the first list element
satisfying the test. -/
def setFirstBy (p : α → Bool) (f : α → α) : List α → List α
  | [] => []
  | x :: xs => if p x then f x :: xs else x :: setFirstBy p f xs

/-- `array.splice(index, 1)` after `findIndex`: drop the first list
element satisfying the test. -/
def removeFirstBy (p : α → Bool) : List α → List α
  | [] => []
  | x :: xs => if p x then xs else x :: removeFirstBy p xs

/-- The offline temporary routine id (`temp-${Date.now()}-${random}`). -/
def mkTempRoutineId (now rand : String) : String :=
  "temp-" ++ now ++ "-" ++ rand

/-- The offline temporary slot id (`temp-slot-${Date.now()}-${random}`). -/
def mkTempSlotId (now rand : String) : String :=
  "temp-slot-" ++ now ++ "-" ++ rand

/-- Input to `createRoutine` (`Omit<Routine, 'id' | 'createdAt'>`; the
offline path overrides `slots` to `[]` and the online service ignores
input slots, so the input carries the data columns). -/
structure RoutineInput where
  name : String
  semester : String
  isActive : Bool
deriving DecidableEq, Repr

/-- `createRoutine` of the hook.  Offline: build the temporary record
flagged `_isOffline`, put it in IndexedDB, prepend it to the view.
Online: on Remote success prepend the server record to the view and put
it in IndexedDB; on rejection rethrow with no state change. -/
def createRoutine (createResult : Except String Routine) (isOffline : Bool)
    (now rand : String) (input : RoutineInput)
    (st : RoutinesState) : Except String Routine × RoutinesState :=
  if isOffline then
    let offlineRoutine : Routine :=
      { id := mkTempRoutineId now rand, name := input.name,
        semester := input.semester, isActive := input.isActive,
        createdAt := now, slots := [],
        _isOffline := true, _isOfflineUpdated := false, _isOfflineDeleted := false }
    (.ok offlineRoutine,
     { routines := offlineRoutine :: st.routines,
       store := putRoutine st.store offlineRoutine })
  else
    match createResult with
    | .error e => (.error e, st)
    | .ok newRoutine =>
        (.ok newRoutine,
         { routines := newRoutine :: st.routines,
           store := putRoutine st.store newRoutine })

/-- `Partial<Routine>` updates to `updateRoutine`; only the data columns
are merged (the callers pass form data). -/
structure RoutineUpdates where
  name : Option String
  semester : Option String
  isActive : Option Bool
deriving DecidableEq, Repr

/-- The spread `{ ...routine, ...updates }`. -/
def applyRoutineUpdates (r : Routine) (u : RoutineUpdates) : Routine :=
  { r with name := u.name.getD r.name, semester := u.semester.getD r.semester,
           isActive := u.isActive.getD r.isActive }

/-- `updateRoutine` of the hook.  Offline: if the record is in IndexedDB,
store the merge additionally flagged `_isOfflineUpdated` (the previously
resident flags, `_isOffline` included, are kept by the spread) and merge
into the view; when absent nothing happens.  Online: on Remote success
merge into the view and, if resident, into IndexedDB (unflagged); on
rejection rethrow with no state change. -/
def updateRoutine (updateResult : Except String Unit) (isOffline : Bool)
    (id : String) (u : RoutineUpdates)
    (st : RoutinesState) : Except String Unit × RoutinesState :=
  if isOffline then
    match st.store.find? (fun r => r.id == id) with
    | some routineToUpdate =>
        let updatedRoutine :=
          { applyRoutineUpdates routineToUpdate u with _isOfflineUpdated := true }
        (.ok (),
         { routines := st.routines.map
             (fun r => if r.id == id then applyRoutineUpdates r u else r),
           store := putRoutine st.store updatedRoutine })
    | none => (.ok (), st)
  else
    match updateResult with
    | .error e => (.error e, st)
    | .ok _ =>
        let routines' := st.routines.map
          (fun r => if r.id == id then applyRoutineUpdates r u else r)
        let store' :=
          match st.store.find? (fun r => r.id == id) with
          | some routineToUpdate =>
              putRoutine st.store (applyRoutineUpdates routineToUpdate u)
          | none => st.store
        (.ok (), { routines := routines', store := store' })

/-- `deleteRoutine` of the hook.  Offline: if resident, re-put the record
flagged `_isOfflineDeleted` (all other flags kept), and drop it from the
view only.  Online: on Remote success drop it from the view and save the
filtered array back — note `saveToIndexedDB` only upserts, so this
re-puts the survivors and cannot remove the deleted record from the
store; on rejection rethrow with no state change. -/
def deleteRoutine (deleteResult : Except String Unit) (isOffline : Bool)
    (id : String) (st : RoutinesState) : Except String Unit × RoutinesState :=
  if isOffline then
    let store' :=
      match st.store.find? (fun r => r.id == id) with
      | some routineToDelete =>
          putRoutine st.store { routineToDelete with _isOfflineDeleted := true }
      | none => st.store
    (.ok (), { routines := st.routines.filter (fun r => r.id != id), store := store' })
  else
    match deleteResult with
    | .error e => (.error e, st)
    | .ok _ =>
        (.ok (),
         { routines := st.routines.filter (fun r => r.id != id),
           store := putRoutines st.store (st.store.filter (fun r => r.id != id)) })

/-- Input slot data for `addRoutineSlot`
(`Omit<RoutineSlot, 'id' | 'routineId' | 'createdAt'>`). -/
structure SlotInput where
  dayOfWeek : String
  startTime : String
  endTime : String
deriving DecidableEq, Repr

/-- `addRoutineSlot` of the hook.  Offline: build the temporary slot
flagged `_isOffline`; if the parent routine is resident append the slot
to it in IndexedDB (the whole array is saved back via put-upserts) and in
the view, else throw `Routine not found`.  Online: on Remote success
append the server slot in the view and, if the parent is resident, in
IndexedDB; on rejection rethrow with no state change. -/
def addRoutineSlot (addResult : Except String RoutineSlot) (isOffline : Bool)
    (routineId : String) (now rand : String) (input : SlotInput)
    (st : RoutinesState) : Except String RoutineSlot × RoutinesState :=
  if isOffline then
    let newSlot : RoutineSlot :=
      { id := mkTempSlotId now rand, routineId := routineId,
        dayOfWeek := input.dayOfWeek, startTime := input.startTime,
        endTime := input.endTime, createdAt := now,
        _isOffline := true, _isOfflineUpdated := false, _isOfflineDeleted := false }
    if st.store.any (fun r => r.id == routineId) then
      let updatedArray := setFirstBy (fun r => r.id == routineId)
        (fun r => { r with slots := r.slots ++ [newSlot] }) st.store
      (.ok newSlot,
       { routines := st.routines.map
           (fun r => if r.id == routineId
                     then { r with slots := r.slots ++ [newSlot] } else r),
         store := putRoutines st.store updatedArray })
    else (.error "Routine not found", st)
  else
    match addResult with
    | .error e => (.error e, st)
    | .ok newSlot =>
        let routines' := st.routines.map
          (fun r => if r.id == routineId
                    then { r with slots := r.slots ++ [newSlot] } else r)
        let store' :=
          match st.store.find? (fun r => r.id == routineId) with
          | some routineToUpdate =>
              putRoutine st.store
                { routineToUpdate with slots := routineToUpdate.slots ++ [newSlot] }
          | none => st.store
        (.ok newSlot, { routines := routines', store := store' })

/-- `Partial<RoutineSlot>` updates to `updateRoutineSlot`. -/
structure SlotUpdates where
  dayOfWeek : Option String
  startTime : Option String
  endTime : Option String
deriving DecidableEq, Repr

/-- The spread `{ ...slot, ...updates }`. -/
def applySlotUpdates (s : RoutineSlot) (u : SlotUpdates) : RoutineSlot :=
  { s with dayOfWeek := u.dayOfWeek.getD s.dayOfWeek,
           startTime := u.startTime.getD s.startTime,
           endTime := u.endTime.getD s.endTime }

/-- `updateRoutineSlot` of the hook.  Offline: if the parent routine is
resident, merge into the matching slot additionally flagged
`_isOfflineUpdated` (resident flags kept), save the whole array back, and
merge (unflagged) into the view; when absent nothing happens.  Online: on
Remote success merge into the view and, if resident, into IndexedDB; on
rejection rethrow with no state change. -/
def updateRoutineSlot (updateResult : Except String Unit) (isOffline : Bool)
    (routineId slotId : String) (u : SlotUpdates)
    (st : RoutinesState) : Except String Unit × RoutinesState :=
  if isOffline then
    if st.store.any (fun r => r.id == routineId) then
      let updatedArray := setFirstBy (fun r => r.id == routineId)
        (fun r => { r with slots := (r.slots.map (fun s =>
          if s.id == slotId
          then { applySlotUpdates s u with _isOfflineUpdated := true }
          else s)) }) st.store
      (.ok (),
       { routines := st.routines.map
           (fun r => if r.id == routineId
                     then { r with slots := (r.slots.map (fun s =>
                       if s.id == slotId then applySlotUpdates s u else s)) }
                     else r),
         store := putRoutines st.store updatedArray })
    else (.ok (), st)
  else
    match updateResult with
    | .error e => (.error e, st)
    | .ok _ =>
        let routines' := st.routines.map
          (fun r => if r.id == routineId
                    then { r with slots := (r.slots.map (fun s =>
                      if s.id == slotId then applySlotUpdates s u else s)) }
                    else r)
        let store' :=
          if st.store.any (fun r => r.id == routineId) then
            putRoutines st.store (setFirstBy (fun r => r.id == routineId)
              (fun r => { r with slots := (r.slots.map (fun s =>
                if s.id == slotId then applySlotUpdates s u else s)) })
              st.store)
          else st.store
        (.ok (), { routines := routines', store := store' })

/-- `deleteRoutineSlot` of the hook.  Offline: in IndexedDB, flag the
matching slot `_isOfflineDeleted` and then drop it entirely when it was a
temporary (`_isOffline`) slot; the view drops the slot unconditionally.
Online: on Remote success drop the slot from the view and, if the parent
is resident, from its IndexedDB record; on rejection rethrow with no
state change. -/
def deleteRoutineSlot (deleteResult : Except String Unit) (isOffline : Bool)
    (routineId slotId : String)
    (st : RoutinesState) : Except String Unit × RoutinesState :=
  if isOffline then
    let store' :=
      if st.store.any (fun r => r.id == routineId) then
        putRoutines st.store (setFirstBy (fun r => r.id == routineId)
          (fun r => { r with slots :=
            ((r.slots.map (fun s => if s.id == slotId
              then { s with _isOfflineDeleted := true } else s)).filter
              (fun s => !(s.id == slotId && s._isOffline))) })
          st.store)
      else st.store
    (.ok (),
     { routines := st.routines.map
         (fun r => if r.id == routineId
                   then { r with slots := r.slots.filter (fun s => s.id != slotId) }
                   else r),
       store := store' })
  else
    match deleteResult with
    | .error e => (.error e, st)
    | .ok _ =>
        let routines' := st.routines.map
          (fun r => if r.id == routineId
                    then { r with slots := r.slots.filter (fun s => s.id != slotId) }
                    else r)
        let store' :=
          if st.store.any (fun r => r.id == routineId) then
            putRoutines st.store (setFirstBy (fun r => r.id == routineId)
              (fun r => { r with slots := r.slots.filter (fun s => s.id != slotId) })
              st.store)
          else st.store
        (.ok (), { routines := routines', store := store' })

/-! ## Reconciliation: `syncOfflineChanges` of the routines hook

The pass reads the whole IndexedDB `routines` store, walks it once, and
replays flagged routines and flagged slots against the Remote Service.
Each replay sits in its own try/catch: a rejection is logged and skipped.
At the end, only when something changed, the synced array is written back
via `saveToIndexedDB` (put-upserts) and becomes the new view. -/

/-- Accumulator of the inner per-slot loop (`syncedSlots`, `slotsChanged`
plus the Remote calls issued so far). -/
structure SlotSyncAcc where
  syncedSlots : List RoutineSlot
  slotsChanged : Bool
  calls : List RemoteCall
deriving Repr

/-- One iteration of `for (const slot of routine.slots)`:
`_isOfflineDeleted` → Remote slot delete, on success splice the slot out
of `syncedSlots`; `_isOffline` → Remote slot create with
`{ _isOffline, id, routineId, createdAt }` destructured away (the service
transmits the scheduling payload), on success the server slot replaces
the temporary one in `syncedSlots`; `_isOfflineUpdated` → Remote slot
update with the flag destructured away, on success
`{ ...slotData, id: slot.id, routineId: routine.id }` replaces the slot.
Failures leave `syncedSlots` untouched.  `splice`/index assignment only
happen when `findIndex` succeeds. -/
def syncSlotStep (remote : Remote) (routineId : String)
    (acc : SlotSyncAcc) (slot : RoutineSlot) : SlotSyncAcc :=
  if slot._isOfflineDeleted then
    match remote.deleteSlotResult routineId slot.id with
    | .ok _ =>
        if acc.syncedSlots.any (fun s => s.id == slot.id) then
          { syncedSlots := removeFirstBy (fun s => s.id == slot.id) acc.syncedSlots,
            slotsChanged := true,
            calls := acc.calls ++ [RemoteCall.deleteSlot routineId slot.id] }
        else { acc with calls := acc.calls ++ [RemoteCall.deleteSlot routineId slot.id] }
    | .error _ =>
        { acc with calls := acc.calls ++ [RemoteCall.deleteSlot routineId slot.id] }
  else if slot._isOffline then
    match remote.addSlotResult routineId slot.payload with
    | .ok newSlot =>
        if acc.syncedSlots.any (fun s => s.id == slot.id) then
          { syncedSlots := setFirstBy (fun s => s.id == slot.id)
              (fun _ => newSlot) acc.syncedSlots,
            slotsChanged := true,
            calls := acc.calls ++ [RemoteCall.addSlot routineId slot.payload] }
        else { acc with calls := acc.calls ++ [RemoteCall.addSlot routineId slot.payload] }
    | .error _ =>
        { acc with calls := acc.calls ++ [RemoteCall.addSlot routineId slot.payload] }
  else if slot._isOfflineUpdated then
    match remote.updateSlotResult routineId slot.id slot.payload with
    | .ok _ =>
        if acc.syncedSlots.any (fun s => s.id == slot.id) then
          { syncedSlots := setFirstBy (fun s => s.id == slot.id)
              (fun _ => { slot with _isOfflineUpdated := false, routineId := routineId })
              acc.syncedSlots,
            slotsChanged := true,
            calls := acc.calls ++ [RemoteCall.updateSlot routineId slot.id slot.payload] }
        else
          { acc with calls := acc.calls ++ [RemoteCall.updateSlot routineId slot.id slot.payload] }
    | .error _ =>
        { acc with calls := acc.calls ++ [RemoteCall.updateSlot routineId slot.id slot.payload] }
  else acc

/-- Accumulator of the outer loop over the stored routines. -/
structure RoutineSyncAcc where
  syncedRoutines : List Routine
  hasChanges : Bool
  calls : List RemoteCall
deriving Repr

/-- One iteration of `for (const routine of offlineRoutines)`:
`_isOfflineDeleted` → Remote routine delete, on success filter the id out
of `syncedRoutines`, then `continue`; `_isOffline` → Remote routine
create (with the flag destructured away — the service transmits only the
data columns, never the temporary id), on success filter the temporary id
out and push the server routine, then `continue`; otherwise a
`_isOfflineUpdated` routine is replayed (flag destructured away, entry
replaced by the unflagged record on success) and — without `continue` —
the routine's slots are walked by `syncSlotStep`, after which a changed
slot list is written into the routine's entry in `syncedRoutines`. -/
def syncRoutineStep (remote : Remote)
    (acc : RoutineSyncAcc) (routine : Routine) : RoutineSyncAcc :=
  if routine._isOfflineDeleted then
    match remote.deleteRoutineResult routine.id with
    | .ok _ =>
        { syncedRoutines := acc.syncedRoutines.filter (fun r => r.id != routine.id),
          hasChanges := true,
          calls := acc.calls ++ [RemoteCall.deleteRoutine routine.id] }
    | .error _ =>
        { acc with calls := acc.calls ++ [RemoteCall.deleteRoutine routine.id] }
  else if routine._isOffline then
    match remote.createRoutineResult routine.payload with
    | .ok newRoutine =>
        { syncedRoutines :=
            acc.syncedRoutines.filter (fun r => r.id != routine.id) ++ [newRoutine],
          hasChanges := true,
          calls := acc.calls ++ [RemoteCall.createRoutine routine.payload] }
    | .error _ =>
        { acc with calls := acc.calls ++ [RemoteCall.createRoutine routine.payload] }
  else
    let acc1 :=
      if routine._isOfflineUpdated then
        match remote.updateRoutineResult routine.id routine.payload with
        | .ok _ =>
            let routineData := { routine with _isOfflineUpdated := false }
            if acc.syncedRoutines.any (fun r => r.id == routine.id) then
              { syncedRoutines := setFirstBy (fun r => r.id == routine.id)
                  (fun _ => routineData) acc.syncedRoutines,
                hasChanges := true,
                calls := acc.calls ++ [RemoteCall.updateRoutine routine.id routine.payload] }
            else
              { acc with calls := acc.calls ++ [RemoteCall.updateRoutine routine.id routine.payload] }
        | .error _ =>
            { acc with calls := acc.calls ++ [RemoteCall.updateRoutine routine.id routine.payload] }
      else acc
    if routine.slots.isEmpty then acc1
    else
      let sacc := routine.slots.foldl (syncSlotStep remote routine.id)
        { syncedSlots := routine.slots, slotsChanged := false, calls := [] }
      if sacc.slotsChanged then
        if acc1.syncedRoutines.any (fun r => r.id == routine.id) then
          { syncedRoutines := setFirstBy (fun r => r.id == routine.id)
              (fun r => { r with slots := sacc.syncedSlots }) acc1.syncedRoutines,
            hasChanges := true,
            calls := acc1.calls ++ sacc.calls }
        else { acc1 with calls := acc1.calls ++ sacc.calls }
      else { acc1 with calls := acc1.calls ++ sacc.calls }

/-- `syncOfflineChanges` of the routines hook.  Early-returns when still
offline.  Otherwise walks the IndexedDB store once; when anything
changed, the synced array is put-upserted back into the store
(`saveToIndexedDB` removes nothing) and becomes the view. -/
def syncOfflineChanges (remote : Remote) (isOffline : Bool)
    (st : RoutinesState) : RoutinesState × List RemoteCall :=
  if isOffline then (st, [])
  else
    let offlineRoutines := st.store
    let acc := offlineRoutines.foldl (syncRoutineStep remote)
      { syncedRoutines := offlineRoutines, hasChanges := false, calls := [] }
    if acc.hasChanges then
      ({ routines := acc.syncedRoutines,
         store := putRoutines st.store acc.syncedRoutines }, acc.calls)
    else (st, acc.calls)

/-! ## Concrete Remote Service behaviours used by the scenarios -/

/-- A server on which every call succeeds; a created routine comes back
under the server id `srv-1`, a created slot under `srv-slot-1`. -/
def okRemote : Remote where
  createRoutineResult := fun p =>
    .ok { id := "srv-1", name := p.name, semester := p.semester,
          isActive := p.isActive, createdAt := "2025-01-02", slots := [],
          _isOffline := false, _isOfflineUpdated := false, _isOfflineDeleted := false }
  updateRoutineResult := fun _ _ => .ok ()
  deleteRoutineResult := fun _ => .ok ()
  addSlotResult := fun rid p =>
    .ok { id := "srv-slot-1", routineId := rid, dayOfWeek := p.dayOfWeek,
          startTime := p.startTime, endTime := p.endTime,
          createdAt := "2025-01-02", _isOffline := false,
          _isOfflineUpdated := false, _isOfflineDeleted := false }
  updateSlotResult := fun _ _ _ => .ok ()
  deleteSlotResult := fun _ _ => .ok ()

/-- A server that rejects the routine update for id `a` and accepts
everything else. -/
def failFirstRemote : Remote :=
  { okRemote with
    updateRoutineResult := fun id _ =>
      if id == "a" then .error "network error" else .ok () }

/-- A previously-synced routine, as the C3 scenario requires: server id,
no offline flag set. -/
def srv7 : Routine :=
  { id := "srv-7", name := "R7", semester := "S1", isActive := false,
    createdAt := "T0", slots := [], _isOffline := false,
    _isOfflineUpdated := false, _isOfflineDeleted := false }

/-- A routine with a pending offline update, under server id `a`. -/
def updTaggedA : Routine :=
  { id := "a", name := "A", semester := "S", isActive := false,
    createdAt := "T", slots := [], _isOffline := false,
    _isOfflineUpdated := true, _isOfflineDeleted := false }

/-- A routine with a pending offline update, under server id `b`. -/
def updTaggedB : Routine :=
  { id := "b", name := "B", semester := "S", isActive := false,
    createdAt := "T", slots := [], _isOffline := false,
    _isOfflineUpdated := true, _isOfflineDeleted := false }

/-- A fully-synced routine (no offline flag set) holding the given
slots. -/
def plainRoutine (rid nm sem : String) (act : Bool) (cAt : String)
    (slots : List RoutineSlot) : Routine :=
  { id := rid, name := nm, semester := sem, isActive := act,
    createdAt := cAt, slots := slots, _isOffline := false,
    _isOfflineUpdated := false, _isOfflineDeleted := false }

/-- A slot created offline (temporary id, flagged `_isOffline`). -/
def tempSlot : RoutineSlot :=
  { id := "temp-slot-100-abc", routineId := "srv-7", dayOfWeek := "Mon",
    startTime := "09:00", endTime := "10:00", createdAt := "100",
    _isOffline := true, _isOfflineUpdated := false, _isOfflineDeleted := false }

/-- A previously-synced slot of routine `b`, deleted offline (flagged
`_isOfflineDeleted`). -/
def delTaggedSlot : RoutineSlot :=
  { id := "srv-slot-7", routineId := "b", dayOfWeek := "Tue",
    startTime := "10:00", endTime := "11:00", createdAt := "T0",
    _isOffline := false, _isOfflineUpdated := false, _isOfflineDeleted := true }

/-- An otherwise-synced routine `b` holding one offline-deleted slot and
one offline-created slot. -/
def slotParent : Routine :=
  plainRoutine "b" "B" "S" false "T" [delTaggedSlot, tempSlot]

/-- The server answer to the slot create replay of `tempSlot` under
parent `b` (per `okRemote.addSlotResult`). -/
def srvSlotB : RoutineSlot :=
  { id := "srv-slot-1", routineId := "b", dayOfWeek := "Mon",
    startTime := "09:00", endTime := "10:00", createdAt := "2025-01-02",
    _isOffline := false, _isOfflineUpdated := false, _isOfflineDeleted := false }

/-- A routine with a pending offline delete, under server id `b`. -/
def delTaggedB : Routine :=
  { id := "b", name := "B", semester := "S", isActive := false,
    createdAt := "T", slots := [], _isOffline := false,
    _isOfflineUpdated := false, _isOfflineDeleted := true }

/-- A record cached for user `u1` under a server id that a later fetch
does not return. -/
def staleTask : OfflineTask :=
  { id := "srv-old", title := "Old", dueDate := "2024-01-01",
    createdAt := "T0", updatedAt := "T0", userId := "u1" }

/-- The single record a later fetch returns. -/
def freshTask : OfflineTask :=
  { id := "srv-1", title := "New", dueDate := "2025-01-01",
    createdAt := "T1", updatedAt := "T1", userId := "u1" }

/-- A routine created offline and then also edited offline: it carries
BOTH the pendingCreate and the pendingUpdate boolean flags. -/
def tempLab : Routine :=
  { id := "temp-100-abc", name := "Lab2", semester := "S1", isActive := true,
    createdAt := "100", slots := [], _isOffline := true,
    _isOfflineUpdated := true, _isOfflineDeleted := false }

end NestTask

namespace NestTask

/-! ## Store lemmas -/

/-- A resident record whose id differs from the put record's id survives
a `store.put`. -/
theorem mem_idbPut_of_ne (getId : α → String) {s : List α} {t : α} (x : α)
    (ht : t ∈ s) (hne : getId x ≠ getId t) : t ∈ idbPut getId s x := by
  unfold idbPut
  by_cases h : s.any (fun y => getId y == getId x) = true
  · rw [if_pos h]
    refine List.mem_map.mpr ⟨t, ht, ?_⟩
    have hfalse : (getId t == getId x) = false := by
      rw [beq_eq_false_iff_ne]
      exact fun hc => hne hc.symm
    simp [hfalse]
  · rw [if_neg h]
    exact List.mem_append_left _ ht

/-- A resident record whose id clashes with none of the saved records
survives the array form of `saveToIndexedDB`. -/
theorem mem_idbPutMany_of_fresh (getId : α → String) {t : α} :
    ∀ (xs : List α) (s : List α), t ∈ s → (∀ x ∈ xs, getId x ≠ getId t) →
      t ∈ idbPutMany getId s xs
  | [], _, ht, _ => ht
  | x :: xs, s, ht, hfresh => by
      have h1 : t ∈ idbPut getId s x :=
        mem_idbPut_of_ne getId x ht (hfresh x (by simp))
      exact mem_idbPutMany_of_fresh getId xs (idbPut getId s x) h1
        (fun y hy => hfresh y (by simp [hy]))

/-- Deleting by id leaves no record with that id: the generic fact about
a filter on a distinct id, used for the task store and the task view. -/
theorem any_eq_filter_ne (f : α → String) (x : String) :
    ∀ l : List α, ((l.filter (fun t => f t != x)).any (fun t => f t == x)) = false := by
  intro l
  induction l with
  | nil => rfl
  | cons a t ih =>
      by_cases h : (f a != x) = true
      · have h2 : (f a == x) = false := by simpa [bne] using h
        simp [List.filter_cons, h, h2, ih]
      · simp [List.filter_cons, h, ih]

/-! ## Claims -/

/-- C1: For every record created while offline (returned immediately with
a provisional temp-prefixed identifier and tagged pendingCreate), a
subsequent successful reconcile() calls Remote create exactly once with
the record's data fields; afterwards the record appears in the in-memory
view under the server-assigned identifier and the provisional identifier
is no longer present in the Local Store.  The code refutes the claim at
the concrete scenario below: the task hook's `syncOfflineChanges` only
refetches and never issues a Remote create, and for routines the
successful reconcile-create does call Remote create exactly once and puts
the server id in the view, yet `saveToIndexedDB` only upserts, so the
provisional record is still present in the Local Store afterwards. -/
theorem C1_reconcile_create_gap :
    (mkTempTaskId "100" "abc" = "temp" ++ "_100_abc") ∧
    (let st1 := (handleCreateTask "u1" true "100" "abc"
        { title := "Lab report", dueDate := "2025-01-10" } (.error "offline")
        { tasks := [], store := [] }).2.1
     let synced := syncOfflineChangesTasks "u1" false (.ok []) st1
     synced.2 = [TaskCall.fetch "u1"] ∧
     synced.1.store.any (fun t => t.id == "temp_100_abc") = true) ∧
    (mkTempRoutineId "100" "abc" = "temp" ++ "-100-abc") ∧
    (let st1 := (createRoutine (.error "offline") true "100" "abc"
        { name := "Lab report", semester := "S1", isActive := true }
        { routines := [], store := [] }).2
     let synced := syncOfflineChanges okRemote false st1
     synced.2 = [RemoteCall.createRoutine
        { name := "Lab report", semester := "S1", isActive := true }] ∧
     synced.1.routines.any (fun r => r.id == "srv-1") = true ∧
     synced.1.routines.any (fun r => r.id == "temp-100-abc") = false ∧
     synced.1.store.any (fun r => r.id == "temp-100-abc") = true) := by
  decide

/-- C2: The claim that a successful online load() leaves the Local Store
holding EXACTLY the fetched record set (full replacement) is false at
this concrete input: a record cached earlier but absent from the fetch
result is still in the store after the load, because `saveToIndexedDB`
only put-upserts and removes nothing. -/
theorem C2_counterexample :
    (let result := loadTasks "u1" false (.ok [freshTask])
        { tasks := [], store := [staleTask] }
     ([freshTask].any (fun t => t.id == "srv-old") = false) ∧
     result.1.store.any (fun t => t.id == "srv-old") = true ∧
     result.1.store ≠ [freshTask].map (fun t => { t with userId := "u1" })) := by
  decide

/-- C2 (amended): after a successful online load(), the in-memory view
equals the fetched set, and the Local Store equals its previous contents
with each fetched record (stamped with the current userId) put-upserted
by id — in particular every previously stored record whose id is absent
from the fetch result remains in the Local Store (merge, not full
replacement). -/
theorem C2_amended_holds (userId : String) (data : List OfflineTask)
    (st : TasksState) :
    (loadTasks userId false (.ok data) st).1.tasks = data ∧
    (loadTasks userId false (.ok data) st).1.store =
      putTasks st.store (data.map (fun t => { t with userId := userId })) ∧
    (∀ t ∈ st.store, (∀ d ∈ data, d.id ≠ t.id) →
      t ∈ (loadTasks userId false (.ok data) st).1.store) := by
  refine ⟨rfl, rfl, ?_⟩
  intro t ht hfresh
  show t ∈ idbPutMany (fun x => x.id) st.store
    (data.map (fun d => { d with userId := userId }))
  apply mem_idbPutMany_of_fresh
  · exact ht
  · intro x hx
    obtain ⟨d, hd, rfl⟩ := List.mem_map.mp hx
    simpa using hfresh d hd

/-- C2 (amended) at a concrete input: the stale record survives the
load. -/
theorem C2_amended_witness :
    staleTask ∈ (loadTasks "u1" false (.ok [freshTask])
      { tasks := [], store := [staleTask] }).1.store :=
  (C2_amended_holds "u1" [freshTask] { tasks := [], store := [staleTask] }).2.2
    staleTask (by decide) (by decide)

/-- C3: For every delete(id) issued while offline on a previously-synced
record, the record disappears from the in-memory view but is retained in
the Local Store tagged pendingDelete; a later reconcile() calls Remote
delete(id) exactly once — all of which the code satisfies below — after
which, the claim says, the record is no longer held in the Local Store.
That last part is refuted: the pass filters the record out of the synced
array, but `saveToIndexedDB` only upserts and the record (still tagged)
survives in the store. -/
theorem C3_offline_delete_not_purged :
    (let afterDelete := (deleteRoutine (.error "offline") true "srv-7"
        { routines := [srv7], store := [srv7] }).2
     afterDelete.routines = [] ∧
     afterDelete.store = [{ srv7 with _isOfflineDeleted := true }] ∧
     (let synced := syncOfflineChanges okRemote false afterDelete
      synced.2 = [RemoteCall.deleteRoutine "srv-7"] ∧
      synced.1.store.any (fun r => r.id == "srv-7") = true)) := by
  decide

/-- C5: The claim that at most one sync tag of {none, pendingCreate,
pendingUpdate, pendingDelete} holds on a record at any time (a new local
mutation overwrites rather than stacks the previous tag) is false: the
tags are three independent boolean flags, and offline-updating a record
that was created offline leaves BOTH `_isOffline` (pendingCreate) and
`_isOfflineUpdated` (pendingUpdate) set on the stored record. -/
theorem C5_counterexample :
    (let st1 := (createRoutine (.error "offline") true "100" "abc"
        { name := "Lab", semester := "S1", isActive := true }
        { routines := [], store := [] }).2
     let st2 := (updateRoutine (.ok ()) true "temp-100-abc"
        { name := some "Lab2", semester := none, isActive := none } st1).2
     st2.store.any (fun r => r._isOffline && r._isOfflineUpdated) = true) := by
  decide

/-- C5 (amended): offline flags accumulate rather than overwrite: an
offline update sets `_isOfflineUpdated` and preserves the resident
`_isOffline` and `_isOfflineDeleted` flags, and an offline delete sets
`_isOfflineDeleted` and preserves the other two, so a record can carry
several tags simultaneously.  Reconciliation resolves the multiplicity by
a fixed priority (delete, then create, then update): a pendingCreate
record is replayed as a create — and only a create — whatever else is
flagged on it, which is the behavioural remnant of "mutating a
pendingCreate record keeps it pendingCreate". -/
theorem C5_amended_holds (r : Routine) (u : RoutineUpdates) :
    (∃ r1, (updateRoutine (.ok ()) true r.id u
        { routines := [r], store := [r] }).2.store = [r1] ∧
      r1._isOffline = r._isOffline ∧ r1._isOfflineUpdated = true ∧
      r1._isOfflineDeleted = r._isOfflineDeleted) ∧
    (∃ r2, (deleteRoutine (.ok ()) true r.id
        { routines := [r], store := [r] }).2.store = [r2] ∧
      r2._isOffline = r._isOffline ∧ r2._isOfflineUpdated = r._isOfflineUpdated ∧
      r2._isOfflineDeleted = true) ∧
    (r._isOffline = true → r._isOfflineDeleted = false →
      ∀ remote : Remote,
        (syncOfflineChanges remote false { routines := [r], store := [r] }).2
          = [RemoteCall.createRoutine r.payload]) := by
  refine ⟨⟨{ applyRoutineUpdates r u with _isOfflineUpdated := true }, ?_, rfl, rfl, rfl⟩,
          ⟨{ r with _isOfflineDeleted := true }, ?_, rfl, rfl, rfl⟩, ?_⟩
  · simp [updateRoutine, putRoutine, idbPut, applyRoutineUpdates]
  · simp [deleteRoutine, putRoutine, idbPut]
  · intro h1 h2 remote
    cases hcr : remote.createRoutineResult r.payload with
    | ok nr => simp [syncOfflineChanges, syncRoutineStep, h1, h2, hcr]
    | error e => simp [syncOfflineChanges, syncRoutineStep, h1, h2, hcr]

/-- C5 (amended) at a concrete input: a routine flagged both
pendingCreate and pendingUpdate is replayed as exactly one create
call. -/
theorem C5_amended_witness :
    (syncOfflineChanges okRemote false
        { routines := [tempLab], store := [tempLab] }).2
      = [RemoteCall.createRoutine tempLab.payload] :=
  (C5_amended_holds tempLab
    { name := none, semester := none, isActive := none }).2.2 rfl rfl okRemote

/-- C4: After a reconcile() pass in which every Remote replay succeeded,
a second reconcile() with no intervening local mutation is claimed to
perform zero Remote calls.  Refuted: the first pass's successful
reconcile-create leaves the temporary record (still flagged) in the
store, so the second pass replays the create again — a duplicate server
creation. -/
theorem C4_second_pass_not_silent :
    (let st1 := (createRoutine (.error "offline") true "100" "abc"
        { name := "Lab report", semester := "S1", isActive := true }
        { routines := [], store := [] }).2
     let sync1 := syncOfflineChanges okRemote false st1
     let sync2 := syncOfflineChanges okRemote false sync1.1
     sync1.2 = [RemoteCall.createRoutine
        { name := "Lab report", semester := "S1", isActive := true }] ∧
     sync2.2 = [RemoteCall.createRoutine
        { name := "Lab report", semester := "S1", isActive := true }] ∧
     sync2.2 ≠ []) := by
  decide

/-- C6: For every create, update or delete issued while online, a Remote
Service rejection makes the operation rethrow while the Local Store and
the in-memory view stay exactly at their pre-call values: in every online
branch the Remote call precedes all view and store writes, so the
rejection reaches the catch (which rethrows) with nothing applied.
Proved for all nine mutation operations of the two hooks, over arbitrary
states. -/
theorem C6_online_failure_no_mutation (e : String)
    (userId now rand taskId : String) (nt : NewTaskInput) (tu : TaskUpdates)
    (tst : TasksState)
    (id rid slotId : String) (inp : RoutineInput) (ru : RoutineUpdates)
    (sinp : SlotInput) (su : SlotUpdates) (rst : RoutinesState) :
    handleCreateTask userId false now rand nt (.error e) tst
      = (.error e, tst, [TaskCall.create userId nt]) ∧
    handleUpdateTask userId false now taskId tu (.error e) tst
      = (.error e, tst, [TaskCall.update taskId tu]) ∧
    handleDeleteTask false taskId (.error e) tst
      = (.error e, tst, [TaskCall.del taskId]) ∧
    createRoutine (.error e) false now rand inp rst = (.error e, rst) ∧
    updateRoutine (.error e) false id ru rst = (.error e, rst) ∧
    deleteRoutine (.error e) false id rst = (.error e, rst) ∧
    addRoutineSlot (.error e) false rid now rand sinp rst = (.error e, rst) ∧
    updateRoutineSlot (.error e) false rid slotId su rst = (.error e, rst) ∧
    deleteRoutineSlot (.error e) false rid slotId rst = (.error e, rst) :=
  ⟨rfl, rfl, rfl, rfl, rfl, rfl, rfl, rfl, rfl⟩

/-- C7: The claim that ANY storage-open failure or transaction failure on
a Local Store read degrades to an empty result (respectively not-found)
is false for transaction failures: the read functions return the inner
request promise from inside the `try`, so a transaction/request rejection
bypasses the `catch` and propagates to the caller. -/
theorem C7_counterexample :
    (getAllFromIndexedDB (.ok ()) (.error "transaction failed")
        : Except String (List OfflineTask)) = .error "transaction failed" ∧
    (getAllFromIndexedDB (.ok ()) (.error "transaction failed")
        : Except String (List OfflineTask)) ≠ .ok [] ∧
    (getByIdFromIndexedDB (.ok ()) (.error "transaction failed")
        : Except String (Option OfflineTask)) ≠ .ok none := by
  refine ⟨rfl, ?_, ?_⟩ <;> intro h <;> exact Except.noConfusion h

/-- C7 (amended): a storage-OPEN failure (the awaited `initDB()`
rejection, which the `catch` does see) degrades to an empty result set,
respectively not-found; a transaction/request failure after a successful
open propagates to the caller as a rejection. -/
theorem C7_amended_holds (e e' : String)
    (req : Except String (List OfflineTask))
    (reqById : Except String (Option OfflineTask)) :
    getAllFromIndexedDB (.error e) req = .ok [] ∧
    getByIdFromIndexedDB (.error e) reqById = .ok none ∧
    (getAllFromIndexedDB (.ok ()) (.error e')
        : Except String (List OfflineTask)) = .error e' ∧
    (getByIdFromIndexedDB (.ok ()) (.error e')
        : Except String (Option OfflineTask)) = .error e' :=
  ⟨rfl, rfl, rfl, rfl⟩

/-- C8: The claim that within one reconcile() pass the records whose
replay succeeded have their tags cleared is false for a successful
create replay: in a mixed pass where the update of record `a` fails and
the create of the temporary record succeeds, the temporary record is
still present and still tagged pendingCreate in the Local Store
afterwards (only the synced array dropped it; `saveToIndexedDB` removes
nothing). -/
theorem C8_counterexample :
    (let synced := syncOfflineChanges failFirstRemote false
        { routines := [updTaggedA, tempLab], store := [updTaggedA, tempLab] }
     synced.2 = [RemoteCall.updateRoutine "a" updTaggedA.payload,
                 RemoteCall.createRoutine tempLab.payload] ∧
     synced.1.store.any (fun r => r.id == "temp-100-abc" && r._isOffline) = true) := by
  decide

/-- C8 (amended): each record's replay is attempted independently — a
Remote failure for one record does not prevent the replay of the others
in the same pass, and the failed record keeps its tag in the Local Store
for retry.  Within the same pass, a succeeded routine UPDATE replay has
its tag cleared in the Local Store, and succeeded SLOT create and delete
replays are cleared too: the parent routine's store entry is re-put
under its unchanged id with the updated slot list, so the stale
temporary or deleted slot is removed from the store.  Only succeeded
TOP-LEVEL routine create and delete replays leave the stale tagged
routine record behind in the Local Store (the synced array drops it, but
the put-upsert save cannot).  Three one-pass mixed scenarios, all with
the Remote rejecting the update of `a` and accepting everything else:
two update-tagged routines (`a` keeps its tag, `b` is stored cleared);
`a` next to a routine with one offline-deleted and one offline-created
slot (all three calls issued, the stored parent holds exactly the
server slot — no tagged slot remains); `a` next to a delete-tagged
routine `b` (delete issued, yet the tagged record `b` survives in the
store). -/
theorem C8_amended_holds :
    (let synced := syncOfflineChanges failFirstRemote false
        { routines := [updTaggedA, updTaggedB], store := [updTaggedA, updTaggedB] }
     synced.2 = [RemoteCall.updateRoutine "a" updTaggedA.payload,
                 RemoteCall.updateRoutine "b" updTaggedB.payload] ∧
     synced.1.store = [updTaggedA, { updTaggedB with _isOfflineUpdated := false }]) ∧
    (let synced := syncOfflineChanges failFirstRemote false
        { routines := [updTaggedA, slotParent], store := [updTaggedA, slotParent] }
     synced.2 = [RemoteCall.updateRoutine "a" updTaggedA.payload,
                 RemoteCall.deleteSlot "b" "srv-slot-7",
                 RemoteCall.addSlot "b" tempSlot.payload] ∧
     synced.1.store = [updTaggedA, { slotParent with slots := [srvSlotB] }]) ∧
    (let synced := syncOfflineChanges failFirstRemote false
        { routines := [updTaggedA, delTaggedB], store := [updTaggedA, delTaggedB] }
     synced.2 = [RemoteCall.updateRoutine "a" updTaggedA.payload,
                 RemoteCall.deleteRoutine "b"] ∧
     synced.1.store = [updTaggedA, delTaggedB]) := by
  decide

/-- C9: The claim that every record created offline and then deleted
offline is removed entirely from both the Local Store and the view with
no Remote call ever made for its provisional identifier is false for
ROUTINES: `deleteRoutine` has no special case for `_isOffline` records,
so the temporary routine is retained in the store tagged
`_isOfflineDeleted`, and the next reconcile() pass issues a Remote
delete with the provisional identifier. -/
theorem C9_counterexample :
    (let st1 := (createRoutine (.error "offline") true "100" "abc"
        { name := "Lab", semester := "S1", isActive := true }
        { routines := [], store := [] }).2
     let st2 := (deleteRoutine (.ok ()) true "temp-100-abc" st1).2
     st2.store.any (fun r => r.id == "temp-100-abc") = true ∧
     (syncOfflineChanges okRemote false st2).2
        = [RemoteCall.deleteRoutine "temp-100-abc"]) := by
  decide

/-- C9 (amended): the property holds for tasks and for routine slots: an
offline-created task deleted offline leaves neither a store nor a view
record under the provisional identifier, and an offline-created slot
deleted offline is removed entirely from its parent routine in both the
store and the view, after which a reconcile() over that state performs no
Remote call; offline-created ROUTINES deleted offline are instead
retained tagged for deletion, per the counterexample. -/
theorem C9_amended_holds (st : TasksState) (userId now rand : String)
    (nt : NewTaskInput)
    (s : RoutineSlot) (hs : s._isOffline = true)
    (rid nm sem cAt : String) (act : Bool) (remote : Remote) :
    (let st1 := (handleCreateTask userId true now rand nt (.error "offline") st).2.1
     let st2 := (handleDeleteTask true (mkTempTaskId now rand) (.ok ()) st1).2.1
     st2.store.any (fun t => t.id == mkTempTaskId now rand) = false ∧
     st2.tasks.any (fun t => t.id == mkTempTaskId now rand) = false) ∧
    (let r := plainRoutine rid nm sem act cAt [s]
     let st2 := (deleteRoutineSlot (.ok ()) true rid s.id
        { routines := [r], store := [r] }).2
     st2.store = [plainRoutine rid nm sem act cAt []] ∧
     st2.routines = [plainRoutine rid nm sem act cAt []] ∧
     (syncOfflineChanges remote false st2).2 = []) := by
  refine ⟨⟨?_, ?_⟩, ?_, ?_, ?_⟩
  · exact any_eq_filter_ne (fun t : OfflineTask => t.id) (mkTempTaskId now rand) _
  · exact any_eq_filter_ne (fun t : OfflineTask => t.id) (mkTempTaskId now rand) _
  · simp [deleteRoutineSlot, putRoutines, idbPutMany, idbPut, setFirstBy,
      plainRoutine, hs]
  · simp [deleteRoutineSlot, plainRoutine]
  · simp [deleteRoutineSlot, putRoutines, idbPutMany, idbPut, setFirstBy,
      plainRoutine, hs, syncOfflineChanges, syncRoutineStep]

/-- C9 (amended) at a concrete input: an offline-created slot deleted
offline leaves a slotless routine and a silent reconcile pass. -/
theorem C9_amended_witness :
    (syncOfflineChanges okRemote false
      (deleteRoutineSlot (.ok ()) true "srv-7" "temp-slot-100-abc"
        { routines := [{ srv7 with slots := [tempSlot] }],
          store := [{ srv7 with slots := [tempSlot] }] }).2).2 = [] :=
  (C9_amended_holds { tasks := [], store := [] } "u1" "100" "abc"
    { title := "t", dueDate := "d" } tempSlot rfl
    "srv-7" "R7" "S1" "T0" false okRemote).2.2.2

/-- C10: Whenever the task load serves records from the Local Store (the
offline path, or the fallback path after an online fetch failure), every
task it places in the in-memory view has a stored userId equal to the
current user's identifier: both paths filter the store by
`task.userId === userId`, and the fallback adopts the filtered list only
when it is non-empty (otherwise the view is left untouched).  Cached
tasks of other users are never served into the view. -/
theorem C10_user_filter_holds (userId : String) (st : TasksState)
    (f : Except String (List OfflineTask)) (e : String) :
    (∀ t ∈ (loadTasks userId true f st).1.tasks, t.userId = userId) ∧
    (∀ t ∈ (loadTasks userId false (.error e) st).1.tasks,
       t ∈ st.tasks ∨ (t ∈ st.store ∧ t.userId = userId)) := by
  constructor
  · intro t ht
    have h1 : t ∈ st.store.filter (fun x => x.userId == userId) := ht
    have h2 := List.mem_filter.mp h1
    simpa using h2.2
  · intro t ht
    by_cases hemp : (st.store.filter (fun x => x.userId == userId)).isEmpty = true
    · left
      have hv : (loadTasks userId false (.error e) st).1.tasks = st.tasks := by
        simp [loadTasks, hemp]
      rwa [hv] at ht
    · right
      have hv : (loadTasks userId false (.error e) st).1.tasks
          = st.store.filter (fun x => x.userId == userId) := by
        simp [loadTasks, hemp]
      rw [hv] at ht
      have h2 := List.mem_filter.mp ht
      exact ⟨h2.1, by simpa using h2.2⟩

/-- C10 at a concrete input: the single cached record of user `u1` is
served offline with the matching userId. -/
theorem C10_user_filter_witness : staleTask.userId = "u1" :=
  (C10_user_filter_holds "u1" { tasks := [], store := [staleTask] }
    (.ok []) "err").1 staleTask (by decide)

end NestTask
